import Mathlib
set_option maxRecDepth 100000

/-!
Verification of the BigModel web-search plugin (src/index.ts, src/index.js).

The repository is a single plugin registering one tool.  We shallowly embed
its logic: JSON-like configuration values, the configuration normalizer of
both variants, the search-request body construction and HTTP-response
handling of performWebSearch, the result formatter, and the tool's execute
handler.  The external world (the HTTP endpoint) is modelled as a
deterministic oracle from request bodies to HTTP responses; the execute
handler additionally returns the list of request bodies it sent, so that
"no network call was made" is the statement that this list is empty.
JavaScript numbers are modelled as exact rationals (no arithmetic is
performed on them, only comparisons, which agree with the source's).
-/

/-- A JSON-like value, as the host runtime hands to the plugin.
Objects are association lists with distinct keys (runtime JS objects). -/
inductive JsonValue where
  | null : JsonValue
  | bool (b : Bool) : JsonValue
  | num (q : Rat) : JsonValue
  | str (s : String) : JsonValue
  | arr (elems : List JsonValue) : JsonValue
  | obj (fields : List (String × JsonValue)) : JsonValue

/-- Property lookup on a JS object (association list, first match). -/
def lookupField (fields : List (String × JsonValue)) (key : String) : Option JsonValue :=
  match fields with
  | [] => none
  | (k, v) :: rest => if k = key then some v else lookupField rest key

/-- The four search-engine identifiers of the `SearchEngineEnum` union. -/
inductive SearchEngine where
  | search_std | search_pro | search_pro_sogou | search_pro_quark
deriving DecidableEq

/-- The five recency-filter identifiers of the `RecencyFilterEnum` union. -/
inductive RecencyFilter where
  | oneDay | oneWeek | oneMonth | oneYear | noLimit
deriving DecidableEq

/-- The two content-size identifiers of the `ContentSizeEnum` union. -/
inductive ContentSize where
  | medium | high
deriving DecidableEq

/-- Which strings are search-engine identifiers; mirrors the chain of
`===` comparisons with the four string literals in `parse`. -/
def searchEngineOfString : String → Option SearchEngine
  | "search_std" => some .search_std
  | "search_pro" => some .search_pro
  | "search_pro_sogou" => some .search_pro_sogou
  | "search_pro_quark" => some .search_pro_quark
  | _ => none

/-- The `PluginConfig` interface: all four fields optional.
`defaultCount` is a JS number (rational), range-checked but not
integrality-checked by the source. -/
structure PluginConfig where
  enabled : Option Bool := none
  apiKey : Option String := none
  defaultSearchEngine : Option SearchEngine := none
  defaultCount : Option Rat := none
deriving DecidableEq

/-- The field projection shared by both variants of
`pluginConfigSchema.parse` (src/index.ts lines 19-33, src/index.js
lines 15-29): each recognized field is kept when its type/range check
passes and is `none` otherwise. -/
def projectConfigFields (raw : List (String × JsonValue)) : PluginConfig :=
  { enabled :=
      match lookupField raw "enabled" with
      | some (.bool b) => some b
      | _ => none,
    apiKey :=
      match lookupField raw "apiKey" with
      | some (.str s) => some s
      | _ => none,
    defaultSearchEngine :=
      match lookupField raw "defaultSearchEngine" with
      | some (.str s) => searchEngineOfString s
      | _ => none,
    defaultCount :=
      match lookupField raw "defaultCount" with
      | some (.num q) => if 1 ≤ q ∧ q ≤ 50 then some q else none
      | _ => none }

/-- `pluginConfigSchema.parse` of src/index.ts: any value that is not a
non-array object yields the empty config; otherwise the four fields are
projected, invalid ones dropped, unknown keys ignored. -/
def pluginConfigSchemaParse (value : JsonValue) : PluginConfig :=
  match value with
  | .obj raw => projectConfigFields raw
  | _ => {}

/-- The `allowedKeys` list of src/index.js line 10. -/
def allowedConfigKeys : List String :=
  ["enabled", "apiKey", "defaultSearchEngine", "defaultCount"]

/-- `pluginConfigSchema.parse` of src/index.js: as the TS variant, but it
throws (`Except.error`) when the object has any key outside
`allowedConfigKeys` (src/index.js lines 10-14). -/
def pluginConfigSchemaParseStrict (value : JsonValue) : Except String PluginConfig :=
  match value with
  | .obj raw =>
      let unknownKeys := (raw.map Prod.fst).filter (fun k => !(allowedConfigKeys.contains k))
      if unknownKeys.length > 0 then
        .error ("Unknown config keys: " ++ String.intercalate ", " unknownKeys)
      else
        .ok (projectConfigFields raw)
  | _ => .ok {}

/-- The tool's invocation parameters (`WebSearchParameters`):
required query, five optional fields. -/
structure WebSearchParams where
  query : String
  search_engine : Option SearchEngine := none
  count : Option Rat := none
  search_recency_filter : Option RecencyFilter := none
  content_size : Option ContentSize := none
  search_domain_filter : Option String := none
deriving DecidableEq

/-- The JSON request body built by `performWebSearch`.
`search_domain_filter = none` means the key is absent from the body. -/
structure RequestBody where
  search_query : String
  search_engine : SearchEngine
  search_intent : Bool
  count : Rat
  search_recency_filter : RecencyFilter
  content_size : ContentSize
  search_domain_filter : Option String
deriving DecidableEq

/-- The `requestBody` construction of `performWebSearch`
(src/index.ts lines 159-169): `??`-defaulting for the enum and count
fields, and a truthiness-guarded spread for `search_domain_filter`,
so the key is present exactly when the parameter is a non-empty string. -/
def performWebSearchRequestBody (params : WebSearchParams) : RequestBody :=
  { search_query := params.query,
    search_engine := params.search_engine.getD .search_std,
    search_intent := false,
    count := params.count.getD 10,
    search_recency_filter := params.search_recency_filter.getD .noLimit,
    content_size := params.content_size.getD .medium,
    search_domain_filter :=
      match params.search_domain_filter with
      | some s => if s = "" then none else some s
      | none => none }

/-- One entry of `search_intent` diagnostics (interface `SearchIntentItem`). -/
inductive SearchIntentKind where
  | SEARCH_ALL | SEARCH_NONE | SEARCH_ALWAYS
deriving DecidableEq

/-- Interface `SearchIntentItem`. -/
structure SearchIntentItem where
  query : String
  intent : SearchIntentKind
  keywords : Option String := none
deriving DecidableEq

/-- Interface `SearchResultItem`: three required fields, four optional. -/
structure SearchResultItem where
  title : String
  content : String
  link : String
  media : Option String := none
  icon : Option String := none
  refer : Option String := none
  publish_date : Option String := none
deriving DecidableEq

/-- Interface `WebSearchResponse`. -/
structure WebSearchResponse where
  id : String
  created : Nat
  request_id : Option String := none
  search_intent : Option (List SearchIntentItem) := none
  search_result : List SearchResultItem
deriving DecidableEq

/-- The `error` member of interface `BigModelErrorResponse`. -/
structure BigModelErrorInfo where
  message : String
  code : Option String := none
deriving DecidableEq

/-- Interface `BigModelErrorResponse`: an optional `error` member. -/
structure BigModelErrorResponse where
  error : Option BigModelErrorInfo := none
deriving DecidableEq

/-- The upstream HTTP response, already read through the TS-declared
types: `ok` and `status` from the fetch response; `errorBody` is the
result of `response.json()` read as `BigModelErrorResponse` (`none` when
the body does not parse); `successBody` is the result of
`response.json()` read as `WebSearchResponse` (`none` when the body does
not parse, in which case the awaited promise rejects). -/
structure HttpResponse where
  ok : Bool
  status : Nat
  errorBody : Option BigModelErrorResponse := none
  successBody : Option WebSearchResponse := none

/-- The thrown message of `performWebSearch`'s non-ok branch
(src/index.ts lines 180-183): `errorData` is the parsed error body or
`{}` (the `.catch(() => ({}))`), and the message falls back to the raw
HTTP status when `errorData.error?.message` is absent. -/
def bigmodelErrorMessage (resp : HttpResponse) : String :=
  let errorData : BigModelErrorResponse := resp.errorBody.getD {}
  let errorMessage : String :=
    match errorData.error with
    | some info => info.message
    | none => "HTTP " ++ toString resp.status
  "BigModel API error: " ++ errorMessage

/-- The response handling of `performWebSearch` (src/index.ts lines
180-187): non-ok statuses throw with `bigmodelErrorMessage`; on ok the
parsed JSON body is returned as-is, and a JSON parse rejection
propagates as a thrown error. -/
def performWebSearchResponse (resp : HttpResponse) : Except String WebSearchResponse :=
  if resp.ok then
    match resp.successBody with
    | some data => .ok data
    | none => .error "Unexpected end of JSON input"
  else
    .error (bigmodelErrorMessage resp)

/-- `performWebSearch` as a whole: build the request body, send it to the
endpoint (the `world` oracle), and handle the response. -/
def performWebSearch (params : WebSearchParams)
    (world : RequestBody → HttpResponse) : Except String WebSearchResponse :=
  performWebSearchResponse (world (performWebSearchRequestBody params))

/-- One item's block in `formatSearchResults` (src/index.ts lines
199-209): the `if (result.media)` / `if (result.publish_date)` guards are
JS truthiness, so a present-but-empty string emits no line. -/
def formatSearchResultItem (index : Nat) (result : SearchResultItem) : String :=
  let parts : List String := ["[" ++ toString (index + 1) ++ "] " ++ result.title]
  let parts := parts ++
    (match result.media with
     | some m => if m = "" then [] else ["Source: " ++ m]
     | none => [])
  let parts := parts ++
    (match result.publish_date with
     | some d => if d = "" then [] else ["Published: " ++ d]
     | none => [])
  let parts := parts ++ ["URL: " ++ result.link, "Content: " ++ result.content]
  String.intercalate "\n" parts

/-- The indexed `.map` of `formatSearchResults`: blocks in input order,
indices counting up from the given start. -/
def formatFrom (index : Nat) (results : List SearchResultItem) : List String :=
  match results with
  | [] => []
  | r :: rest => formatSearchResultItem index r :: formatFrom (index + 1) rest

/-- `formatSearchResults` (src/index.ts lines 193-212). -/
def formatSearchResults (results : List SearchResultItem) : String :=
  if results.length = 0 then
    "No search results found."
  else
    String.intercalate "\n\n---\n\n" (formatFrom 0 results)

/-- One `{type: "text", text}` content block of a tool result. -/
structure TextBlock where
  type : String
  text : String
deriving DecidableEq

/-- The `details` record of a tool result: the error shape
`{error, message}` or the success shape
`{query, resultCount, searchEngine}`. -/
inductive ToolDetails where
  | errorDetails (error : Bool) (message : String)
  | successDetails (query : String) (resultCount : Nat) (searchEngine : SearchEngine)
deriving DecidableEq

/-- A tool result: a content list and a details record. -/
structure ToolResult where
  content : List TextBlock
  details : ToolDetails
deriving DecidableEq

/-- The explanatory text returned when no API key is configured
(src/index.ts line 240). -/
def apiKeyMissingText : String :=
  "Error: BigModel API key is not configured. Please set it in plugin config (plugins.entries.bigmodel-web-search.config.apiKey) or BIGMODEL_API_KEY environment variable."

/-- The full missing-key tool result (src/index.ts lines 236-244). -/
def apiKeyMissingResult : ToolResult :=
  { content := [{ type := "text", text := apiKeyMissingText }],
    details := .errorDetails true "API key not configured" }

/-- `const apiKey = pluginConfig.apiKey ?? process.env.BIGMODEL_API_KEY`
followed by the `if (!apiKey)` truthiness test (src/index.ts lines
234-235): the usable key, `none` when both sources are absent or the
resolved key is the empty string (falsy). -/
def resolveSecret (cfgKey envKey : Option String) : Option String :=
  match cfgKey.orElse (fun _ => envKey) with
  | none => none
  | some k => if k = "" then none else some k

/-- The tool's `execute` handler (src/index.ts lines 232-284), with the
network modelled by the `world` oracle.  The second component is the
list of request bodies actually sent, so an empty list states that no
network call was made. -/
def executeTraced (pluginConfig : PluginConfig) (envApiKey : Option String)
    (params : WebSearchParams) (world : RequestBody → HttpResponse) :
    ToolResult × List RequestBody :=
  match resolveSecret pluginConfig.apiKey envApiKey with
  | none => (apiKeyMissingResult, [])
  | some _ =>
      let resolvedEngine :=
        (params.search_engine.orElse (fun _ => pluginConfig.defaultSearchEngine)).getD .search_std
      let resolvedCount :=
        (params.count.orElse (fun _ => pluginConfig.defaultCount)).getD 10
      let searchParams : WebSearchParams :=
        { params with search_engine := some resolvedEngine, count := some resolvedCount }
      let requestBody := performWebSearchRequestBody searchParams
      match performWebSearchResponse (world requestBody) with
      | .ok response =>
          ({ content := [⟨"text",
               "## Web Search Results for: \"" ++ params.query ++ "\"\n\n"
                 ++ formatSearchResults response.search_result⟩],
             details := .successDetails params.query response.search_result.length resolvedEngine },
           [requestBody])
      | .error errorMessage =>
          ({ content := [⟨"text", "Error performing web search: " ++ errorMessage⟩],
             details := .errorDetails true errorMessage },
           [requestBody])

/-! ## Spec-side definitions

These restate, in the spec's own words, the contracts that the claims
compare the source against. -/

/-- Spec 4.4: "explicit invocation value, else plugin-config default,
else hardcoded default". -/
def resolveParam {α : Type} (explicit cfgDefault : Option α) (hardcoded : α) : α :=
  match explicit with
  | some v => v
  | none =>
      match cfgDefault with
      | some v => v
      | none => hardcoded

/-- An optional line of a result block: emitted when the field is present
and non-empty. -/
def specOptionalLine (label : String) (value : Option String) : List String :=
  match value with
  | some s => if s = "" then [] else [label ++ s]
  | none => []

/-- Spec 4.3: one item's block, with its 1-based index. -/
def specItemBlock (index : Nat) (result : SearchResultItem) : String :=
  String.intercalate "\n"
    (["[" ++ toString index ++ "] " ++ result.title]
      ++ specOptionalLine "Source: " result.media
      ++ specOptionalLine "Published: " result.publish_date
      ++ ["URL: " ++ result.link]
      ++ ["Content: " ++ result.content])

/-- Spec 4.3: the whole formatter, blocks in input order with 1-based
indices, joined by the blank-line-bracketed separator. -/
def formatSpec (results : List SearchResultItem) : String :=
  if results = [] then
    "No search results found."
  else
    String.intercalate "\n\n---\n\n"
      (List.zipWith specItemBlock (List.range' 1 results.length) results)

/-- Field check of the normalizer spec: a boolean. -/
def asBool : JsonValue → Option Bool
  | .bool b => some b
  | _ => none

/-- Field check of the normalizer spec: a string. -/
def asString : JsonValue → Option String
  | .str s => some s
  | _ => none

/-- Field check of the normalizer spec: one of the four engine names. -/
def asEngineName : JsonValue → Option SearchEngine
  | .str s => searchEngineOfString s
  | _ => none

/-- Field check of the normalizer spec: a number. -/
def asNumber : JsonValue → Option Rat
  | .num q => some q
  | _ => none

/-- The configuration normalizer as the amended claim states it: empty
config for anything but a non-array object, otherwise each recognized
field kept exactly when its check passes — `enabled` a boolean, `apiKey`
a string, `defaultSearchEngine` one of the four engine names, and
`defaultCount` a number between 1 and 50 inclusive. -/
def parseSpecAmended (value : JsonValue) : PluginConfig :=
  match value with
  | .obj raw =>
      { enabled := (lookupField raw "enabled").bind asBool,
        apiKey := (lookupField raw "apiKey").bind asString,
        defaultSearchEngine := (lookupField raw "defaultSearchEngine").bind asEngineName,
        defaultCount := ((lookupField raw "defaultCount").bind asNumber).bind
          (fun q => if 1 ≤ q ∧ q ≤ 50 then some q else none) }
  | _ => {}

/-- Substring occurrence, used to state "the message contains ...". -/
def strContains (s sub : String) : Prop :=
  ∃ a b, s = a ++ sub ++ b

/-- A deterministic world whose endpoint always answers HTTP 200 with an
empty result list; used to instantiate the execute handler concretely. -/
def okWorldEmpty : RequestBody → HttpResponse :=
  fun _ => { ok := true, status := 200,
             successBody := some { id := "i", created := 0, search_result := [] } }

/-! ## Helper lemmas -/

theorem strContains_append_left (a sub : String) : strContains (a ++ sub) sub :=
  ⟨a, "", by rw [String.append_empty]⟩

theorem strContains_append_left2 (a b sub : String) : strContains (a ++ (b ++ sub)) sub :=
  ⟨a ++ b, "", by rw [String.append_empty, String.append_assoc]⟩

theorem lookupField_append_unknown (raw : List (String × JsonValue)) (k name : String)
    (jv : JsonValue) (h : k ≠ name) :
    lookupField (raw ++ [(k, jv)]) name = lookupField raw name := by
  induction raw with
  | nil => simp [lookupField, h]
  | cons p rest ih =>
      obtain ⟨k', v⟩ := p
      by_cases hk : k' = name <;> simp [lookupField, hk, ih]

theorem resolveParam_eq {α : Type} (explicit cfgDefault : Option α) (hardcoded : α) :
    (explicit.orElse (fun _ => cfgDefault)).getD hardcoded
      = resolveParam explicit cfgDefault hardcoded := by
  cases explicit <;> cases cfgDefault <;> rfl

theorem formatSearchResultItem_eq_specItemBlock (i : Nat) (r : SearchResultItem) :
    formatSearchResultItem i r = specItemBlock (i + 1) r := by
  unfold formatSearchResultItem specItemBlock specOptionalLine
  cases r.media <;> cases r.publish_date <;> simp

theorem formatFrom_eq_zipWith (i : Nat) (rs : List SearchResultItem) :
    formatFrom i rs = List.zipWith specItemBlock (List.range' (i + 1) rs.length) rs := by
  induction rs generalizing i with
  | nil => rfl
  | cons r rest ih =>
      rw [List.length_cons, List.range'_succ]
      simp only [formatFrom, List.zipWith, ih, formatSearchResultItem_eq_specItemBlock]

theorem formatSearchResults_eq_formatSpec (rs : List SearchResultItem) :
    formatSearchResults rs = formatSpec rs := by
  unfold formatSearchResults formatSpec
  cases rs with
  | nil => rfl
  | cons r rest =>
      rw [formatFrom_eq_zipWith 0 (r :: rest)]
      simp

theorem formatFrom_middle (i : Nat) (pre post : List SearchResultItem)
    (x y : SearchResultItem)
    (hxy : ∀ j, formatSearchResultItem j x = formatSearchResultItem j y) :
    formatFrom i (pre ++ x :: post) = formatFrom i (pre ++ y :: post) := by
  induction pre generalizing i with
  | nil => simp [formatFrom, hxy]
  | cons p rest ih => simp [formatFrom, ih]

theorem parse_eq_parseSpecAmended (v : JsonValue) :
    pluginConfigSchemaParse v = parseSpecAmended v := by
  cases v with
  | obj raw =>
      show projectConfigFields raw = _
      unfold projectConfigFields parseSpecAmended
      refine PluginConfig.mk.injEq .. ▸ ⟨?_, ?_, ?_, ?_⟩
      · cases h : lookupField raw "enabled" with
        | none => rfl
        | some jv => cases jv <;> rfl
      · cases h : lookupField raw "apiKey" with
        | none => rfl
        | some jv => cases jv <;> rfl
      · cases h : lookupField raw "defaultSearchEngine" with
        | none => rfl
        | some jv => cases jv <;> rfl
      · cases h : lookupField raw "defaultCount" with
        | none => rfl
        | some jv => cases jv <;> rfl
  | null => rfl
  | bool b => rfl
  | num q => rfl
  | str s => rfl
  | arr elems => rfl

/-! ## Claims -/

/-- C1: when the plugin config has no apiKey and the BIGMODEL_API_KEY
environment variable is unset, execute returns immediately the
error-shaped result with details {error: true, message: "API key not
configured"} and an explanatory text block, and sends no request to the
network (the trace of sent request bodies is empty), for every
invocation parameters and every world. -/
theorem execute_no_api_key (cfg : PluginConfig) (envApiKey : Option String)
    (params : WebSearchParams) (world : RequestBody → HttpResponse)
    (h1 : cfg.apiKey = none) (h2 : envApiKey = none) :
    executeTraced cfg envApiKey params world
      = ({ content := [⟨"text", apiKeyMissingText⟩],
           details := .errorDetails true "API key not configured" }, []) := by
  unfold executeTraced resolveSecret
  rw [h1, h2]
  rfl

/-- Witness for C1 at a concrete configuration, parameters and world. -/
theorem execute_no_api_key_witness :
    executeTraced {} none { query := "q" } okWorldEmpty
      = ({ content := [⟨"text", apiKeyMissingText⟩],
           details := .errorDetails true "API key not configured" }, []) :=
  execute_no_api_key {} none { query := "q" } okWorldEmpty rfl rfl

/-- C2: the execute handler is a total function (it never raises: the
embedding returns a ToolResult on every input), its content is always a
single text block, and its details are always either the success shape
or the error shape with error = true and a message. -/
theorem execute_never_raises (cfg : PluginConfig) (envApiKey : Option String)
    (params : WebSearchParams) (world : RequestBody → HttpResponse) :
    ((executeTraced cfg envApiKey params world).1.content.length = 1)
  ∧ ((∃ q n e, (executeTraced cfg envApiKey params world).1.details = .successDetails q n e)
    ∨ (∃ m, (executeTraced cfg envApiKey params world).1.details = .errorDetails true m)) := by
  unfold executeTraced
  cases resolveSecret cfg.apiKey envApiKey with
  | none => exact ⟨rfl, .inr ⟨"API key not configured", rfl⟩⟩
  | some k =>
      dsimp only
      cases performWebSearchResponse
          (world (performWebSearchRequestBody
            { params with
                search_engine :=
                  some ((params.search_engine.orElse
                    (fun _ => cfg.defaultSearchEngine)).getD .search_std),
                count := some ((params.count.orElse (fun _ => cfg.defaultCount)).getD 10) })) with
      | ok response => exact ⟨rfl, .inl ⟨params.query, response.search_result.length, _, rfl⟩⟩
      | error m => exact ⟨rfl, .inr ⟨m, rfl⟩⟩

/-- C3: the request body built by performWebSearch has exactly the
claimed fields: search_query is the query; search_engine, count,
search_recency_filter and content_size take the explicit value when
present and otherwise search_std, 10, noLimit and medium; search_intent
is always false; and the search_domain_filter key is included if and
only if the parameter is present and non-empty. -/
theorem performWebSearch_request_body (params : WebSearchParams) :
    (performWebSearchRequestBody params).search_query = params.query
  ∧ (performWebSearchRequestBody params).search_engine
      = (match params.search_engine with | some e => e | none => .search_std)
  ∧ (performWebSearchRequestBody params).search_intent = false
  ∧ (performWebSearchRequestBody params).count
      = (match params.count with | some c => c | none => 10)
  ∧ (performWebSearchRequestBody params).search_recency_filter
      = (match params.search_recency_filter with | some f => f | none => .noLimit)
  ∧ (performWebSearchRequestBody params).content_size
      = (match params.content_size with | some c => c | none => .medium)
  ∧ ∀ s, (performWebSearchRequestBody params).search_domain_filter = some s
        ↔ (params.search_domain_filter = some s ∧ s ≠ "") := by
  obtain ⟨q, se, c, srf, cs, sdf⟩ := params
  refine ⟨rfl, ?_, rfl, ?_, ?_, ?_, ?_⟩
  · cases se <;> rfl
  · cases c <;> rfl
  · cases srf <;> rfl
  · cases cs <;> rfl
  · intro s
    cases sdf with
    | none => simp [performWebSearchRequestBody]
    | some t =>
        by_cases ht : t = "" <;>
          simp only [performWebSearchRequestBody, ht, if_true, if_false, reduceIte] <;>
          constructor
        · rintro ⟨⟩
        · rintro ⟨h, hs⟩
          cases h
          exact absurd rfl hs
        · rintro ⟨⟩
          exact ⟨rfl, ht⟩
        · rintro ⟨h, hs⟩
          exact h

/-- Witness for C3's domain-filter clause at concrete parameters. -/
theorem performWebSearch_request_body_witness :
    (performWebSearchRequestBody
        { query := "q", search_domain_filter := some "example.com" }).search_domain_filter
      = some "example.com" :=
  ((performWebSearch_request_body
      { query := "q", search_domain_filter := some "example.com" }).2.2.2.2.2.2
    "example.com").mpr ⟨rfl, by decide⟩

/-- C4: on every non-ok HTTP response, performWebSearch fails with an
error (never an ok value); the message contains the upstream
error.message when the error body parsed with that field present, and
otherwise (unparseable body, or no error.message in it) contains the
raw HTTP status code. -/
theorem performWebSearch_http_error (resp : HttpResponse) (h : resp.ok = false) :
    performWebSearchResponse resp = .error (bigmodelErrorMessage resp)
  ∧ (∀ info, resp.errorBody = some { error := some info } →
      strContains (bigmodelErrorMessage resp) info.message)
  ∧ (resp.errorBody = none →
      strContains (bigmodelErrorMessage resp) (toString resp.status))
  ∧ (∀ b, resp.errorBody = some b → b.error = none →
      strContains (bigmodelErrorMessage resp) (toString resp.status)) := by
  obtain ⟨ok, status, errorBody, successBody⟩ := resp
  subst h
  refine ⟨rfl, ?_, ?_, ?_⟩
  · rintro info rfl
    exact strContains_append_left "BigModel API error: " info.message
  · rintro rfl
    exact strContains_append_left2 "BigModel API error: " "HTTP " (toString status)
  · rintro b rfl hb
    obtain ⟨be⟩ := b
    have hb' : be = none := hb
    subst hb'
    exact strContains_append_left2 "BigModel API error: " "HTTP " (toString status)

/-- Witness for C4: HTTP 401 with body {"error":{"message":"bad key"}}
fails with a message containing "bad key", and HTTP 500 with an
unparseable body fails with a message containing "500". -/
theorem performWebSearch_http_error_witness :
    (performWebSearchResponse ⟨false, 401, some ⟨some ⟨"bad key", none⟩⟩, none⟩
        = .error "BigModel API error: bad key"
      ∧ strContains "BigModel API error: bad key" "bad key")
  ∧ (performWebSearchResponse ⟨false, 500, none, none⟩
        = .error "BigModel API error: HTTP 500"
      ∧ strContains "BigModel API error: HTTP 500" "500") := by
  obtain ⟨e1, m1, -, -⟩ :=
    performWebSearch_http_error ⟨false, 401, some ⟨some ⟨"bad key", none⟩⟩, none⟩ rfl
  obtain ⟨e2, -, m2, -⟩ :=
    performWebSearch_http_error ⟨false, 500, none, none⟩ rfl
  exact ⟨⟨e1, m1 ⟨"bad key", none⟩ rfl⟩, ⟨e2, m2 rfl⟩⟩

/-- C5 counterexample: for an item whose media field is present but
empty, the code emits no "Source:" line, while the claim ("optionally
Source: <media> if present") predicts the block
"[1] T\nSource: \nURL: L\nContent: C". -/
theorem formatSearchResults_empty_media_counterexample :
    formatSearchResults [⟨"T", "C", "L", some "", none, none, none⟩]
      = "[1] T\nURL: L\nContent: C"
  ∧ formatSearchResults [⟨"T", "C", "L", some "", none, none, none⟩]
      ≠ "[1] T\nSource: \nURL: L\nContent: C" := by
  constructor
  · rfl
  · decide

/-- C5 (amended): formatSearchResults is pure and total; the empty list
yields exactly "No search results found.", and a non-empty list yields,
in input order, blocks "[<1-based index>] <title>", then "Source:
<media>" when media is present and non-empty, then "Published:
<publish_date>" when publish_date is present and non-empty, then "URL:
<link>", then "Content: <content>", newline-joined within an item and
with items joined by "\n\n---\n\n"; in particular the single item
{title: T, content: C, link: L} yields "[1] T\nURL: L\nContent: C" and
two items are separated by "\n\n---\n\n" with indices counting from 1. -/
theorem formatSearchResults_spec :
    (∀ rs, formatSearchResults rs = formatSpec rs)
  ∧ formatSearchResults [] = "No search results found."
  ∧ formatSearchResults [⟨"T", "C", "L", none, none, none, none⟩]
      = "[1] T\nURL: L\nContent: C"
  ∧ formatSearchResults
        [⟨"A", "CA", "LA", none, none, none, none⟩, ⟨"B", "CB", "LB", none, none, none, none⟩]
      = "[1] A\nURL: LA\nContent: CA" ++ "\n\n---\n\n" ++ "[2] B\nURL: LB\nContent: CB" := by
  refine ⟨formatSearchResults_eq_formatSpec, rfl, rfl, ?_⟩
  decide

/-- C6: whenever execute sends a request, the body's search_engine and
count are resolved as: explicit invocation value, else plugin-config
default, else the hardcoded defaults search_std and 10; on success the
returned details carry exactly this resolved engine, so with a
configured default engine and no per-call override the details carry
the config default. -/
theorem execute_default_resolution (cfg : PluginConfig) (envApiKey : Option String)
    (params : WebSearchParams) (world : RequestBody → HttpResponse) :
    (∀ b ∈ (executeTraced cfg envApiKey params world).2,
        b.search_engine = resolveParam params.search_engine cfg.defaultSearchEngine .search_std
      ∧ b.count = resolveParam params.count cfg.defaultCount 10)
  ∧ (∀ q n e, (executeTraced cfg envApiKey params world).1.details = .successDetails q n e →
        e = resolveParam params.search_engine cfg.defaultSearchEngine .search_std)
  ∧ (params.search_engine = none → ∀ e0, cfg.defaultSearchEngine = some e0 →
      ∀ q n e, (executeTraced cfg envApiKey params world).1.details = .successDetails q n e →
        e = e0) := by
  have hmain :
      (∀ b ∈ (executeTraced cfg envApiKey params world).2,
          b.search_engine = resolveParam params.search_engine cfg.defaultSearchEngine .search_std
        ∧ b.count = resolveParam params.count cfg.defaultCount 10)
    ∧ (∀ q n e, (executeTraced cfg envApiKey params world).1.details = .successDetails q n e →
          e = resolveParam params.search_engine cfg.defaultSearchEngine .search_std) := by
    unfold executeTraced
    cases resolveSecret cfg.apiKey envApiKey with
    | none =>
        refine ⟨?_, ?_⟩
        · rintro b ⟨⟩
        · rintro q n e ⟨⟩
    | some k =>
        dsimp only
        cases performWebSearchResponse
            (world (performWebSearchRequestBody
              { params with
                  search_engine :=
                    some ((params.search_engine.orElse
                      (fun _ => cfg.defaultSearchEngine)).getD .search_std),
                  count := some ((params.count.orElse (fun _ => cfg.defaultCount)).getD 10) })) with
        | ok response =>
            refine ⟨?_, ?_⟩
            · rintro b hb
              rw [List.mem_singleton] at hb
              subst hb
              exact ⟨resolveParam_eq params.search_engine cfg.defaultSearchEngine .search_std,
                resolveParam_eq params.count cfg.defaultCount 10⟩
            · rintro q n e he
              cases he
              exact resolveParam_eq params.search_engine cfg.defaultSearchEngine .search_std
        | error m =>
            refine ⟨?_, ?_⟩
            · rintro b hb
              rw [List.mem_singleton] at hb
              subst hb
              exact ⟨resolveParam_eq params.search_engine cfg.defaultSearchEngine .search_std,
                resolveParam_eq params.count cfg.defaultCount 10⟩
            · rintro q n e ⟨⟩
  refine ⟨hmain.1, hmain.2, ?_⟩
  intro hnone e0 he0 q n e he
  have := hmain.2 q n e he
  rw [hnone, he0] at this
  exact this

/-- Witness for C6: with a config default engine search_pro, no per-call
override and a successful world, the returned details carry search_pro. -/
theorem execute_default_resolution_witness :
    (executeTraced { defaultSearchEngine := some .search_pro } (some "k")
        { query := "q" } okWorldEmpty).1.details
      = .successDetails "q" 0 .search_pro
  ∧ SearchEngine.search_pro = SearchEngine.search_pro := by
  have h := (execute_default_resolution { defaultSearchEngine := some .search_pro } (some "k")
      { query := "q" } okWorldEmpty).2.2 rfl .search_pro rfl "q" 0 .search_pro
  exact ⟨by decide, h (by decide)⟩

/-- C7 counterexample: the source keeps defaultCount = 21/2, a
non-integer number inside [1, 50], while the claim's per-field check
("an integer between 1 and 50 inclusive") predicts it is dropped. -/
theorem pluginConfigParse_noninteger_count_counterexample :
    (pluginConfigSchemaParse (.obj [("defaultCount", .num (mkRat 21 2))])).defaultCount
      = some (mkRat 21 2)
  ∧ ¬ (mkRat 21 2).isInt
  ∧ (1 : Rat) ≤ mkRat 21 2 ∧ mkRat 21 2 ≤ 50 := by
  decide

/-- C7 (amended): parse is a pure function that returns the empty config
for any input that is not a non-array object, and otherwise keeps each
of the four recognized fields exactly when its check passes — enabled a
boolean, apiKey a string, defaultSearchEngine one of the four engine
names, and defaultCount a number (integrality not required) between 1
and 50 inclusive — treating failing fields as absent; in particular
{apiKey: "x", defaultCount: 51} yields {apiKey: "x"}. -/
theorem pluginConfigParse_spec :
    (∀ v, pluginConfigSchemaParse v = parseSpecAmended v)
  ∧ pluginConfigSchemaParse (.obj [("apiKey", .str "x"), ("defaultCount", .num 51)])
      = { apiKey := some "x" } := by
  refine ⟨parse_eq_parseSpecAmended, ?_⟩
  decide

/-- C8 counterexample: with a plugin-config default engine search_pro,
supplying the explicit hardcoded defaults gives different output than
omitting the parameters (details carry search_std versus search_pro),
so the round-trip does not hold for every invocation. -/
theorem execute_defaulting_roundtrip_counterexample :
    (executeTraced { defaultSearchEngine := some .search_pro } (some "k")
        { query := "q", search_engine := some .search_std, count := some 10,
          search_recency_filter := some .noLimit, content_size := some .medium }
        okWorldEmpty).1.details
  ≠ (executeTraced { defaultSearchEngine := some .search_pro } (some "k")
        { query := "q" } okWorldEmpty).1.details := by
  decide

/-- C8 (amended): provided the plugin config supplies no
defaultSearchEngine and no defaultCount, supplying explicit parameter
values equal to the hardcoded defaults (search_std, 10, noLimit,
medium) produces output — returned result and sent request bodies —
identical to omitting those parameters, for every secret source, query,
domain filter and world. -/
theorem execute_defaulting_roundtrip (cfg : PluginConfig) (envApiKey : Option String)
    (world : RequestBody → HttpResponse) (q : String) (df : Option String)
    (h1 : cfg.defaultSearchEngine = none) (h2 : cfg.defaultCount = none) :
    executeTraced cfg envApiKey
      { query := q, search_engine := some .search_std, count := some 10,
        search_recency_filter := some .noLimit, content_size := some .medium,
        search_domain_filter := df } world
  = executeTraced cfg envApiKey { query := q, search_domain_filter := df } world := by
  unfold executeTraced
  cases resolveSecret cfg.apiKey envApiKey with
  | none => rfl
  | some k =>
      dsimp only
      rw [h1, h2]
      rfl

/-- Witness for C8 (amended) at a concrete secret, query and world. -/
theorem execute_defaulting_roundtrip_witness :
    executeTraced {} (some "k")
      { query := "q", search_engine := some .search_std, count := some 10,
        search_recency_filter := some .noLimit, content_size := some .medium }
      okWorldEmpty
  = executeTraced {} (some "k") { query := "q" } okWorldEmpty :=
  execute_defaulting_roundtrip {} (some "k") okWorldEmpty "q" none rfl rfl

/-- C9: the strict variant's parse fails exactly on non-array objects
having a key outside the four recognized names, and the other variant
(a total function, hence never raising) is unchanged by deleting an
unrecognized key, i.e. silently ignores unknown keys. -/
theorem config_strict_unknown_keys :
    (∀ v, (∃ e, pluginConfigSchemaParseStrict v = .error e)
        ↔ ∃ raw, v = .obj raw ∧ ∃ k ∈ raw.map Prod.fst, k ∉ allowedConfigKeys)
  ∧ (∀ raw k jv, k ∉ allowedConfigKeys →
      pluginConfigSchemaParse (.obj (raw ++ [(k, jv)])) = pluginConfigSchemaParse (.obj raw)) := by
  constructor
  · intro v
    cases v with
    | obj raw =>
        unfold pluginConfigSchemaParseStrict
        dsimp only
        constructor
        · rintro ⟨e, he⟩
          refine ⟨raw, rfl, ?_⟩
          by_cases h : ((raw.map Prod.fst).filter fun k => !(allowedConfigKeys.contains k)).length > 0
          · obtain ⟨x, hx⟩ := List.exists_mem_of_length_pos h
            rw [List.mem_filter] at hx
            exact ⟨x, hx.1, by simpa using hx.2⟩
          · rw [if_neg h] at he
            exact Except.noConfusion he
        · rintro ⟨raw', hraw, k, hk, hka⟩
          injection hraw with hraw'
          subst hraw'
          have hmem : k ∈ (raw.map Prod.fst).filter (fun k => !(allowedConfigKeys.contains k)) :=
            List.mem_filter.mpr ⟨hk, by simpa using hka⟩
          rw [if_pos (List.length_pos_of_mem hmem)]
          exact ⟨_, rfl⟩
    | null =>
        exact ⟨fun ⟨e, he⟩ => Except.noConfusion he, fun ⟨raw, hraw, _⟩ => JsonValue.noConfusion hraw⟩
    | bool b =>
        exact ⟨fun ⟨e, he⟩ => Except.noConfusion he, fun ⟨raw, hraw, _⟩ => JsonValue.noConfusion hraw⟩
    | num q =>
        exact ⟨fun ⟨e, he⟩ => Except.noConfusion he, fun ⟨raw, hraw, _⟩ => JsonValue.noConfusion hraw⟩
    | str s =>
        exact ⟨fun ⟨e, he⟩ => Except.noConfusion he, fun ⟨raw, hraw, _⟩ => JsonValue.noConfusion hraw⟩
    | arr elems =>
        exact ⟨fun ⟨e, he⟩ => Except.noConfusion he, fun ⟨raw, hraw, _⟩ => JsonValue.noConfusion hraw⟩
  · intro raw k jv hk
    have hk1 : k ≠ "enabled" := by rintro rfl; exact hk (by decide)
    have hk2 : k ≠ "apiKey" := by rintro rfl; exact hk (by decide)
    have hk3 : k ≠ "defaultSearchEngine" := by rintro rfl; exact hk (by decide)
    have hk4 : k ≠ "defaultCount" := by rintro rfl; exact hk (by decide)
    show projectConfigFields (raw ++ [(k, jv)]) = projectConfigFields raw
    unfold projectConfigFields
    rw [lookupField_append_unknown raw k "enabled" jv hk1,
      lookupField_append_unknown raw k "apiKey" jv hk2,
      lookupField_append_unknown raw k "defaultSearchEngine" jv hk3,
      lookupField_append_unknown raw k "defaultCount" jv hk4]

/-- Witness for C9: appending the unknown key "extra" leaves the
non-strict parse unchanged. -/
theorem config_strict_unknown_keys_witness :
    pluginConfigSchemaParse (.obj ([("apiKey", .str "x")] ++ [("extra", .num 1)]))
      = pluginConfigSchemaParse (.obj [("apiKey", .str "x")]) :=
  config_strict_unknown_keys.2 [("apiKey", .str "x")] "extra" (.num 1) (by decide)

/-- C10: the optional Source and Published lines are emitted based on
truthiness, not mere presence: an item whose media (respectively
publish_date) is present but empty formats exactly as if the field were
absent, both for a single block and inside any result list. -/
theorem format_optional_lines_truthiness (i : Nat) (r : SearchResultItem)
    (pre post : List SearchResultItem) :
    (formatSearchResultItem i { r with media := some "" }
        = formatSearchResultItem i { r with media := none }
      ∧ formatSearchResultItem i { r with publish_date := some "" }
        = formatSearchResultItem i { r with publish_date := none })
  ∧ formatSearchResults (pre ++ { r with media := some "" } :: post)
      = formatSearchResults (pre ++ { r with media := none } :: post)
  ∧ formatSearchResults (pre ++ { r with publish_date := some "" } :: post)
      = formatSearchResults (pre ++ { r with publish_date := none } :: post) := by
  have hm : ∀ j, formatSearchResultItem j { r with media := some "" }
      = formatSearchResultItem j { r with media := none } := fun j => rfl
  have hp : ∀ j, formatSearchResultItem j { r with publish_date := some "" }
      = formatSearchResultItem j { r with publish_date := none } := fun j => rfl
  refine ⟨⟨hm i, hp i⟩, ?_, ?_⟩
  · unfold formatSearchResults
    rw [formatFrom_middle 0 pre post _ _ hm]
    simp [List.length_append]
  · unfold formatSearchResults
    rw [formatFrom_middle 0 pre post _ _ hp]
    simp [List.length_append]
